import Mathlib

/-!
Shallow embedding of the project/task aggregation and synchronization logic of
src/js/app.js (a browser CRUD client for a project tracker), together with
theorems settling the specification claims about it.

Modelling conventions:
* JS numbers are modelled as rationals; a non-finite JS number (NaN or an
  infinity, which in this code can arise only from division by zero) is
  modelled as `none` in `Option ℚ`.
* `Number.prototype.toFixed(2)` is modelled as exact rounding of the rational
  value to two decimal places (round half up, which is what toFixed does for
  the nonnegative values occurring here).
* The network is modelled by passing the task list a fetch would return as an
  explicit argument, and by letting each stateful function return the list of
  write requests it issues, in issue order.  Since every network call in the
  source is awaited (single-threaded JS event loop), the requests of one
  invocation form a sequence, and list order is issue order.
-/

namespace ProjectTracker

/-- Task record as consumed by the aggregation code: the status is the raw
string the backend returns (the code compares it with "done" and
"in progress"), the weight a number. -/
structure Task where
  name : String
  status : String
  weight : ℚ
deriving DecidableEq, Repr

/-- Project record as stored by the backend: name, status string and the
completion percentage last pushed (`none` models a pushed NaN). -/
structure Project where
  name : String
  status : String
  completion_progress : Option ℚ
deriving DecidableEq, Repr

/-- Accumulation `totalWeight += task.weight` over all tasks
(src/js/app.js lines 174-179). -/
def totalWeight (tasks : List Task) : ℚ :=
  (tasks.map Task.weight).sum

/-- Accumulation `completedWeight += task.weight` over the tasks with
`task.status === "done"` (src/js/app.js lines 174-179). -/
def completedWeight (tasks : List Task) : ℚ :=
  ((tasks.filter (fun t => t.status = "done")).map Task.weight).sum

/-- Rounding to two decimal places, as `toFixed(2)` performs on the
nonnegative finite values arising here. -/
def round2 (q : ℚ) : ℚ :=
  (round (q * 100) : ℤ) / 100

/-- JS division `a / b`: the result is a finite number exactly when the
denominator is nonzero; `none` stands for NaN (0/0) or an infinity (x/0). -/
def jsDiv (a b : ℚ) : Option ℚ :=
  if b = 0 then none else some (a / b)

/-- Pure core of `calculateProjectProgress` (src/js/app.js lines 159-190),
as a function of the fetched task list: 0 for an empty list, otherwise
`(completedWeight / totalWeight) * 100` rounded via `toFixed(2)`. -/
def calculateProjectProgress (tasks : List Task) : Option ℚ :=
  if tasks.isEmpty then some 0
  else (jsDiv (completedWeight tasks) (totalWeight tasks)).map
    (fun r => round2 (r * 100))

/-- Status rollup computed inside `updateProjectStatus`
(src/js/app.js lines 423-429): default "draft", overwritten by "done" when
`tasks.every(t => t.status === "done")`, else by "in progress" when
`tasks.some(t => t.status === "in progress")`. -/
def projectStatus (tasks : List Task) : String :=
  if tasks.all (fun t => t.status = "done") then "done"
  else if tasks.any (fun t => t.status = "in progress") then "in progress"
  else "draft"

/-- Modelled from the spec (the reference definition quoted by the rollup
claim): "done" if and only if every task has status "done"; otherwise
"in progress" if and only if at least one task has status "in progress";
otherwise "draft"; the all-done check precedes the any-in-progress check. -/
def specStatus (tasks : List Task) : String :=
  if ∀ t ∈ tasks, t.status = "done" then "done"
  else if ∃ t ∈ tasks, t.status = "in progress" then "in progress"
  else "draft"

/-- Backend write request, as issued by the fetch calls of the source.
`putProgress` models the PUT with body `{completion_progress}` sent by
`updateProjectProgress` (a `none` payload corresponds to pushing NaN);
`putStatus` the PUT with body `{status}` sent by `updateProjectStatus`;
`postTask` and `putTask` the task mutations of the two task handlers. -/
inductive Request where
  | putProgress (projectId : Nat) (progress : Option ℚ)
  | putStatus (projectId : Nat) (status : String)
  | postTask (projectId : Nat) (t : Task)
  | putTask (taskId : Nat) (t : Task)
deriving DecidableEq, Repr

/-- Write trace of `updateProjectStatus` (src/js/app.js lines 416-452) given
the task list its fetch returns: it always issues exactly one status PUT,
carrying the rolled-up status. -/
def updateProjectStatus (projectId : Nat) (tasks : List Task) : List Request :=
  [Request.putStatus projectId (projectStatus tasks)]

/-- Write trace of `calculateAndUpdateProjectProgress`
(src/js/app.js lines 198-243) given the task list its fetch returns: on an
empty list it returns before issuing any request; otherwise it awaits the
progress PUT (`updateProjectProgress`) and then awaits `updateProjectStatus`,
whose own fetch is modelled as returning the same task list. -/
def calculateAndUpdateProjectProgress (projectId : Nat) (tasks : List Task) :
    List Request :=
  if tasks.isEmpty then []
  else
    Request.putProgress projectId
        ((jsDiv (completedWeight tasks) (totalWeight tasks)).map
          (fun r => round2 (r * 100))) ::
      updateProjectStatus projectId tasks

/-- Write trace of the awaited continuation of the `submitTaskBtn` click
handler after a 2xx response (src/js/app.js lines 489-499): the task POST,
then `await calculateAndUpdateProjectProgress`, then a direct
`await updateProjectStatus`.  `tasksAfter` is the task list the backend
returns to the subsequent fetches.  The un-awaited `loadProjects()` call is
fire-and-forget and outside this trace. -/
def submitTaskSuccess (projectId : Nat) (newTask : Task)
    (tasksAfter : List Task) : List Request :=
  Request.postTask projectId newTask ::
    (calculateAndUpdateProjectProgress projectId tasksAfter ++
      updateProjectStatus projectId tasksAfter)

/-- Write trace of the awaited continuation of the `submitEditTaskBtn` click
handler after a 2xx response (src/js/app.js lines 533-544): the task PUT,
then `await calculateAndUpdateProjectProgress`, then a direct
`await updateProjectStatus`. -/
def submitEditTaskSuccess (taskId projectId : Nat) (edited : Task)
    (tasksAfter : List Task) : List Request :=
  Request.putTask taskId edited ::
    (calculateAndUpdateProjectProgress projectId tasksAfter ++
      updateProjectStatus projectId tasksAfter)

/-- Effect of one request on the stored record of the project `pid`:
progress and status PUTs addressed to it overwrite the corresponding field;
every other request leaves it unchanged. -/
def applyRequest (pid : Nat) (p : Project) : Request → Project
  | Request.putProgress id prog =>
      if id = pid then { p with completion_progress := prog } else p
  | Request.putStatus id st =>
      if id = pid then { p with status := st } else p
  | _ => p

/-- Effect of a request trace, applied in issue order, on the stored record
of the project `pid`. -/
def applyTrace (pid : Nat) (p : Project) (trace : List Request) : Project :=
  trace.foldl (applyRequest pid) p

/-- Recognizer for a progress PUT addressed to project `pid`. -/
def Request.isProgressPut (pid : Nat) : Request → Bool
  | Request.putProgress id _ => id = pid
  | _ => false

/-- Recognizer for a status PUT addressed to project `pid`. -/
def Request.isStatusPut (pid : Nat) : Request → Bool
  | Request.putStatus id _ => id = pid
  | _ => false

/-- Recognizer for any PUT addressed to the project resource `pid`. -/
def Request.isProjectPut (pid : Nat) : Request → Bool
  | Request.putProgress id _ => id = pid
  | Request.putStatus id _ => id = pid
  | _ => false

/-- Form-level request issued by a modal submit handler; fields carry the raw
input strings exactly as the source posts them. -/
inductive FormRequest where
  | postTaskForm (projectId : Option Nat) (name status weight : String)
  | putTaskForm (taskId : Option Nat) (name status weight : String)
  | postProjectForm (name status : String) (progress : ℚ)
  | putProjectForm (projectId : Option Nat) (name : String)
deriving DecidableEq, Repr

/-- Requests issued by the `submitTaskBtn` click handler as a function of the
form fields (src/js/app.js lines 470-487): the POST is sent unconditionally,
with no non-empty validation of any field. -/
def submitTaskClick (currentProjectId : Option Nat)
    (name status weight : String) : List FormRequest :=
  [FormRequest.postTaskForm currentProjectId name status weight]

/-- Requests issued by the `submitEditTaskBtn` click handler as a function of
the form fields (src/js/app.js lines 515-531): the PUT is sent
unconditionally, with no non-empty validation of any field. -/
def submitEditTaskClick (currentTaskId : Option Nat)
    (name status weight : String) : List FormRequest :=
  [FormRequest.putTaskForm currentTaskId name status weight]

/-- Requests issued by the `submitProjectBtn` click handler
(src/js/app.js lines 603-623): an empty name (falsy in `!projectName`)
aborts before the POST. -/
def submitProjectClick (name : String) : List FormRequest :=
  if name = "" then [] else [FormRequest.postProjectForm name "draft" 0]

/-- Requests issued by the `submitEditProjectBtn` click handler
(src/js/app.js lines 559-581): an empty name aborts before the PUT. -/
def submitEditProjectClick (currentProjectId : Option Nat) (name : String) :
    List FormRequest :=
  if name = "" then [] else [FormRequest.putProjectForm currentProjectId name]

/-- C1: for every task list, the status rollup computed by
`updateProjectStatus` equals the reference definition: "done" if and only if
every task has status "done"; otherwise "in progress" if and only if at least
one task has status "in progress"; otherwise "draft", with the all-done check
taking precedence over the any-in-progress check. -/
theorem claim_C1_status_rollup (tasks : List Task) :
    projectStatus tasks = specStatus tasks := by
  by_cases hall : ∀ t ∈ tasks, t.status = "done"
  · simp [projectStatus, specStatus, hall, List.all_eq_true]
  · by_cases hany : ∃ t ∈ tasks, t.status = "in progress"
    · simp [projectStatus, specStatus, hall, hany, List.all_eq_true,
        List.any_eq_true]
    · simp [projectStatus, specStatus, hall, hany, List.all_eq_true,
        List.any_eq_true]

/-- C4: `calculateProjectProgress` applied to an empty task list returns 0. -/
theorem claim_C4_empty_list_progress_zero :
    calculateProjectProgress [] = some 0 := rfl

/-- C6: when the fetched task list is empty,
`calculateAndUpdateProjectProgress` issues no request at all (in particular
no progress PUT and no status PUT), and applying its trace to any stored
project record leaves the record, including its completion_progress and
status fields, unchanged. -/
theorem claim_C6_empty_tasks_noop (pid : Nat) (p : Project) :
    calculateAndUpdateProjectProgress pid [] = [] ∧
      applyTrace pid p (calculateAndUpdateProjectProgress pid []) = p :=
  ⟨rfl, rfl⟩

/-- C7: on an empty fetched task list the rollup inside
`updateProjectStatus` is vacuously "done" and the function issues a PUT
setting the status of the project to "done"; the task-creation and task-edit
handlers call `updateProjectStatus` directly after the no-op sync
coordinator, so their traces on a project left with zero tasks end in that
status-done PUT. -/
theorem claim_C7_empty_tasks_status_done (pid tid : Nat) (t e : Task) :
    projectStatus [] = "done" ∧
    updateProjectStatus pid [] = [Request.putStatus pid "done"] ∧
    submitTaskSuccess pid t [] =
      [Request.postTask pid t, Request.putStatus pid "done"] ∧
    submitEditTaskSuccess tid pid e [] =
      [Request.putTask tid e, Request.putStatus pid "done"] :=
  ⟨rfl, rfl, rfl, rfl⟩

/-- C8: contrary to the claim, only the project handlers validate their
required text field; the task handlers issue their REST call even when the
task name field is empty.  Evaluated at the failing input (empty name): the
create-task and edit-task click handlers still issue a request, while the
create-project and edit-project handlers issue none. -/
theorem claim_C8_task_handlers_skip_validation :
    submitTaskClick (some 1) "" "draft" "1" =
      [FormRequest.postTaskForm (some 1) "" "draft" "1"] ∧
    submitEditTaskClick (some 2) "" "done" "3" =
      [FormRequest.putTaskForm (some 2) "" "done" "3"] ∧
    submitProjectClick "" = [] ∧
    submitEditProjectClick (some 1) "" = [] :=
  ⟨rfl, rfl, rfl, rfl⟩

/-- C2: for every non-empty task list whose total weight is nonzero (so that
the quotient in the specification formula denotes), the completion percentage
computed by `calculateProjectProgress` equals the sum of the weights of the
tasks with status "done", divided by the sum of all weights, times 100,
rounded to two decimal places. -/
theorem claim_C2_progress_formula (tasks : List Task) (hne : tasks ≠ [])
    (hw : totalWeight tasks ≠ 0) :
    calculateProjectProgress tasks =
      some (round2
        ((((tasks.filter (fun t => t.status = "done")).map Task.weight).sum /
            (tasks.map Task.weight).sum) * 100)) := by
  have h1 : tasks.isEmpty = false := by
    cases tasks with
    | nil => exact absurd rfl hne
    | cons a l => rfl
  simp only [calculateProjectProgress, h1, Bool.false_eq_true, if_false,
    jsDiv]
  rw [if_neg hw]
  rfl

/-- C2 witness: two tasks of weight 2, one done, satisfy both hypotheses and
the formula. -/
theorem claim_C2_witness :
    (([Task.mk "a" "done" 2, Task.mk "b" "draft" 2] : List Task) ≠ [] ∧
      totalWeight [Task.mk "a" "done" 2, Task.mk "b" "draft" 2] ≠ 0) ∧
    calculateProjectProgress [Task.mk "a" "done" 2, Task.mk "b" "draft" 2] =
      some (round2
        (((([Task.mk "a" "done" 2, Task.mk "b" "draft" 2].filter
              (fun t => t.status = "done")).map Task.weight).sum /
            ([Task.mk "a" "done" 2, Task.mk "b" "draft" 2].map
              Task.weight).sum) * 100)) :=
  ⟨⟨by simp, by norm_num [totalWeight]⟩,
    claim_C2_progress_formula _ (by simp) (by norm_num [totalWeight])⟩

/-- C5: within one invocation of `calculateAndUpdateProjectProgress` on a
non-empty task list, the progress PUT occurs in the request trace at an index
strictly before the status PUT, and the status PUT does occur; since every
request in the trace is awaited before the next is issued, the two are never
in flight together. -/
theorem claim_C5_progress_put_before_status_put (pid : Nat)
    (tasks : List Task) (h : tasks ≠ []) :
    ((calculateAndUpdateProjectProgress pid tasks).findIdx
        (Request.isProgressPut pid) <
      (calculateAndUpdateProjectProgress pid tasks).findIdx
        (Request.isStatusPut pid)) ∧
    (calculateAndUpdateProjectProgress pid tasks).findIdx
        (Request.isStatusPut pid) <
      (calculateAndUpdateProjectProgress pid tasks).length := by
  have h1 : tasks.isEmpty = false := by
    cases tasks with
    | nil => exact absurd rfl h
    | cons a l => rfl
  simp [calculateAndUpdateProjectProgress, updateProjectStatus, h1,
    List.findIdx_cons, Request.isProgressPut, Request.isStatusPut]

/-- C5 witness: one draft task of weight 1. -/
theorem claim_C5_witness :
    (([Task.mk "a" "draft" 1] : List Task) ≠ []) ∧
    (((calculateAndUpdateProjectProgress 1 [Task.mk "a" "draft" 1]).findIdx
        (Request.isProgressPut 1) <
      (calculateAndUpdateProjectProgress 1 [Task.mk "a" "draft" 1]).findIdx
        (Request.isStatusPut 1)) ∧
    (calculateAndUpdateProjectProgress 1 [Task.mk "a" "draft" 1]).findIdx
        (Request.isStatusPut 1) <
      (calculateAndUpdateProjectProgress 1 [Task.mk "a" "draft" 1]).length) :=
  ⟨by simp, claim_C5_progress_put_before_status_put 1 _ (by simp)⟩

/-- C9: after a successful task creation or task edit with a non-empty task
list, the PUT requests addressed to the project resource are exactly three,
in order: the progress PUT, then the status PUT issued inside the sync
coordinator, then the second, duplicate status PUT issued by the direct
`updateProjectStatus` call of the handler. -/
theorem claim_C9_three_project_puts (pid tid : Nat) (t e : Task)
    (tasks : List Task) (h : tasks ≠ []) :
    (submitTaskSuccess pid t tasks).filter (Request.isProjectPut pid) =
      [Request.putProgress pid (calculateProjectProgress tasks),
       Request.putStatus pid (projectStatus tasks),
       Request.putStatus pid (projectStatus tasks)] ∧
    (submitEditTaskSuccess tid pid e tasks).filter
        (Request.isProjectPut pid) =
      [Request.putProgress pid (calculateProjectProgress tasks),
       Request.putStatus pid (projectStatus tasks),
       Request.putStatus pid (projectStatus tasks)] := by
  have h1 : tasks.isEmpty = false := by
    cases tasks with
    | nil => exact absurd rfl h
    | cons a l => rfl
  simp [submitTaskSuccess, submitEditTaskSuccess,
    calculateAndUpdateProjectProgress, updateProjectStatus,
    calculateProjectProgress, h1, Request.isProjectPut, List.filter_cons]

/-- C9 witness: one done task of weight 2. -/
theorem claim_C9_witness :
    (([Task.mk "x" "done" 2] : List Task) ≠ []) ∧
    ((submitTaskSuccess 1 (Task.mk "y" "draft" 1)
        [Task.mk "x" "done" 2]).filter (Request.isProjectPut 1) =
      [Request.putProgress 1 (calculateProjectProgress [Task.mk "x" "done" 2]),
       Request.putStatus 1 (projectStatus [Task.mk "x" "done" 2]),
       Request.putStatus 1 (projectStatus [Task.mk "x" "done" 2])] ∧
    (submitEditTaskSuccess 2 1 (Task.mk "z" "draft" 1)
        [Task.mk "x" "done" 2]).filter (Request.isProjectPut 1) =
      [Request.putProgress 1 (calculateProjectProgress [Task.mk "x" "done" 2]),
       Request.putStatus 1 (projectStatus [Task.mk "x" "done" 2]),
       Request.putStatus 1 (projectStatus [Task.mk "x" "done" 2])]) :=
  ⟨by simp,
    claim_C9_three_project_puts 1 2 (Task.mk "y" "draft" 1)
      (Task.mk "z" "draft" 1) _ (by simp)⟩

/-- C10: `calculateProjectProgress` is invariant under any permutation of the
task list. -/
theorem claim_C10_perm_invariant (ts us : List Task) (h : ts.Perm us) :
    calculateProjectProgress ts = calculateProjectProgress us := by
  have hW : totalWeight ts = totalWeight us := (h.map Task.weight).sum_eq
  have hC : completedWeight ts = completedWeight us := by
    unfold completedWeight
    exact ((h.filter _).map Task.weight).sum_eq
  have hE : ts.isEmpty = us.isEmpty := by
    have hl := h.length_eq
    cases ts <;> cases us <;> simp_all
  simp only [calculateProjectProgress]
  rw [hE, hW, hC]

/-- C10 witness: swapping two concrete tasks leaves the percentage
unchanged. -/
theorem claim_C10_witness :
    (([Task.mk "b" "draft" 1, Task.mk "a" "done" 2] : List Task).Perm
      [Task.mk "a" "done" 2, Task.mk "b" "draft" 1]) ∧
    calculateProjectProgress [Task.mk "b" "draft" 1, Task.mk "a" "done" 2] =
      calculateProjectProgress [Task.mk "a" "done" 2, Task.mk "b" "draft" 1] :=
  ⟨List.Perm.swap (Task.mk "a" "done" 2) (Task.mk "b" "draft" 1) [],
    claim_C10_perm_invariant _ _
      (List.Perm.swap (Task.mk "a" "done" 2) (Task.mk "b" "draft" 1) [])⟩

/-- Lower bound for two-decimal rounding: a nonnegative value stays
nonnegative. -/
theorem round2_nonneg {q : ℚ} (h : 0 ≤ q) : 0 ≤ round2 q := by
  unfold round2
  have h0 : (0 : ℤ) ≤ round (q * 100) := by
    rw [round_eq]
    exact Int.floor_nonneg.2 (by linarith)
  have h1 : (0 : ℚ) ≤ ((round (q * 100) : ℤ) : ℚ) := by exact_mod_cast h0
  positivity

/-- Upper bound for two-decimal rounding: a value at most 100 stays at most
100. -/
theorem round2_le_hundred {q : ℚ} (h : q ≤ 100) : round2 q ≤ 100 := by
  unfold round2
  have h0 : round (q * 100) ≤ 10000 := by
    rw [round_eq]
    have h2 : ⌊q * 100 + 1 / 2⌋ < 10001 := by
      apply Int.floor_lt.2
      push_cast
      linarith
    omega
  have h1 : ((round (q * 100) : ℤ) : ℚ) ≤ 10000 := by exact_mod_cast h0
  linarith

/-- C3 counterexample: a non-empty task list whose only task has weight 0
makes `calculateProjectProgress` divide zero by zero, so its result is NaN
(modelled `none`), not a well-defined number in [0, 100]. -/
theorem claim_C3_counterexample :
    calculateProjectProgress [Task.mk "t" "done" 0] = none := by
  have hz : totalWeight [Task.mk "t" "done" 0] = 0 := by
    norm_num [totalWeight]
  simp [calculateProjectProgress, jsDiv, hz]

/-- C3 amended: for every non-empty task list whose weights are all positive
(as the data model prescribes), `calculateProjectProgress` returns a
well-defined number, and that number lies in [0, 100]. -/
theorem claim_C3_progress_defined_in_range (tasks : List Task)
    (hne : tasks ≠ []) (hpos : ∀ t ∈ tasks, 0 < t.weight) :
    ∃ q : ℚ, calculateProjectProgress tasks = some q ∧ 0 ≤ q ∧ q ≤ 100 := by
  have hw : 0 < totalWeight tasks := by
    apply List.sum_pos
    · intro x hx
      obtain ⟨t, ht, rfl⟩ := List.mem_map.1 hx
      exact hpos t ht
    · simpa using hne
  have hc0 : 0 ≤ completedWeight tasks := by
    apply List.sum_nonneg
    intro x hx
    obtain ⟨t, ht, rfl⟩ := List.mem_map.1 hx
    exact (hpos t (List.mem_of_mem_filter ht)).le
  have hcle : completedWeight tasks ≤ totalWeight tasks := by
    apply List.Sublist.sum_le_sum
    · exact (List.filter_sublist tasks).map Task.weight
    · intro x hx
      obtain ⟨t, ht, rfl⟩ := List.mem_map.1 hx
      exact (hpos t ht).le
  have h1 : tasks.isEmpty = false := by
    cases tasks with
    | nil => exact absurd rfl hne
    | cons a l => rfl
  refine ⟨round2 (completedWeight tasks / totalWeight tasks * 100), ?_, ?_, ?_⟩
  · simp [calculateProjectProgress, jsDiv, h1, hw.ne']
  · exact round2_nonneg (by positivity)
  · apply round2_le_hundred
    have hr : completedWeight tasks / totalWeight tasks ≤ 1 :=
      (div_le_one hw).2 hcle
    linarith

/-- C3 witness for the amended claim: two tasks of positive weight, one
done. -/
theorem claim_C3_witness :
    ((([Task.mk "a" "done" 1, Task.mk "b" "draft" 3] : List Task) ≠ []) ∧
      (∀ t ∈ ([Task.mk "a" "done" 1, Task.mk "b" "draft" 3] : List Task),
        0 < t.weight)) ∧
    (∃ q : ℚ,
      calculateProjectProgress [Task.mk "a" "done" 1, Task.mk "b" "draft" 3] =
        some q ∧ 0 ≤ q ∧ q ≤ 100) :=
  ⟨⟨by simp, by intro t ht; fin_cases ht <;> norm_num⟩,
    claim_C3_progress_defined_in_range _ (by simp)
      (by intro t ht; fin_cases ht <;> norm_num)⟩

end ProjectTracker
